import Mathlib

/-! Shallow embedding of the `Reaction` renderer from
`uchroma/fxlib/reaction.py`, together with the pieces of the host and
traitlets contracts that the renderer relies on.

Conventions of the embedding:
* Python floats are modelled as rationals (`ℚ`); the decimal literals of
  the source (`0.15`, `0.25`) are exact in `ℚ`.
* Grapefruit colors are modelled as RGBA quadruples of rationals with
  channels in the unit interval; an unset `ColorTrait` is `Option.none`.
* Python `int(x)` truncation is `pyInt`; Python list indexing, with its
  negative-index rule and possible `IndexError`, is `pyIndex`.
* Code that can raise is modelled with `Except PyError`.
-/

/-- Constant `DEFAULT_SPEED = 6` from reaction.py. -/
def DEFAULT_SPEED : ℤ := 6

/-- Constant `MAX_SPEED = 9` from reaction.py. -/
def MAX_SPEED : ℤ := 9

/-- Constant `EXPIRE_TIME_FACTOR = 0.25` from reaction.py. -/
def EXPIRE_TIME_FACTOR : ℚ := 0.25

/-- Constant `REACT_COLOR_KEY = 'reaction_color'` from reaction.py. -/
def REACT_COLOR_KEY : String := "reaction_color"

/-- RGBA color with channels in the unit interval, as used by grapefruit. -/
structure Color where
  r : ℚ
  g : ℚ
  b : ℚ
  a : ℚ
  deriving DecidableEq, Repr

/-- Tuple `(0, 0, 0, 1)` that `_update_colors` compares the background
color against: opaque black, the sentinel "unset" value. -/
def opaqueBlack : Color := ⟨0, 0, 0, 1⟩

/-- Value of the hex literal `"#000000"` passed by `__init__`, parsed the
way grapefruit parses hex colors (all channels 0, alpha 1). -/
def colorHex000000 : Color := ⟨0, 0, 0, 1⟩

/-- Value of the hex literal `"#FFFFFF"` passed by `__init__`. -/
def colorHexFFFFFF : Color := ⟨1, 1, 1, 1⟩

/-- Concrete red color used in concrete test states. -/
def colorRed : Color := ⟨1, 0, 0, 1⟩

/-- Concrete green color used in concrete test states. -/
def colorGreen : Color := ⟨0, 1, 0, 1⟩

/-- Coordinate (a key position) with fields `y` and `x`, as read by
`_react_keys`. -/
structure Coord where
  y : ℤ
  x : ℤ
  deriving DecidableEq, Repr

/-- Host-owned key event: `percent_complete` runs from 1 (just pressed)
toward 0; `coords` may be missing (`None`); `data` is the mutable data
bag, modelled as an insertion-ordered association list as a Python dict. -/
structure KeyEvent where
  percent_complete : ℚ
  coords : Option (List Coord)
  data : List (String × Option Color)
  deriving DecidableEq, Repr

/-- State of a `Reaction` renderer instance.  The `builds` field is a
log of the `(bg_color, color)` argument pairs of every `_set_colors`
call, recording each gradient-table build. -/
structure ReactionState where
  speed : ℤ
  key_expire_time : ℚ
  background_color : Option Color
  color : Option Color
  gradient : Option (List Color)
  gradient_count : ℕ
  init_speed : Bool
  init_colors : Bool
  builds : List (Option Color × Option Color)
  deriving DecidableEq, Repr

/-- Python `int(x)` on a float: truncation toward zero. -/
def pyInt (q : ℚ) : ℤ := if 0 ≤ q then ⌊q⌋ else -⌊-q⌋

/-- Python list indexing `l[i]`: negative indices count from the end;
an index out of range is `none` (an `IndexError` at the call site). -/
def pyIndex {α : Type} (l : List α) (i : ℤ) : Option α :=
  if 0 ≤ (if i < 0 then (l.length : ℤ) + i else i) then
    l[(if i < 0 then (l.length : ℤ) + i else i).toNat]?
  else
    none

/-- Python dict read `d[k]` on the data bag; `none` is a `KeyError`. -/
def bagGet (d : List (String × Option Color)) (k : String) :
    Option (Option Color) :=
  match d with
  | [] => none
  | p :: rest => if p.1 = k then some p.2 else bagGet rest k

/-- Python dict write `d[k] = v` on the data bag: replace the value in
place if the key is present, else append the new entry. -/
def bagSet (d : List (String × Option Color)) (k : String) (v : Option Color) :
    List (String × Option Color) :=
  match d with
  | [] => [(k, v)]
  | p :: rest => if p.1 = k then (k, v) :: rest else p :: bagSet rest k v

/-- Linear interpolation of one channel. -/
def lerp (t u v : ℚ) : ℚ := u + t * (v - u)

/-- Linear interpolation of two colors. -/
def lerpColor (t : ℚ) (c d : Color) : Color :=
  ⟨lerp t c.r d.r, lerp t c.g d.g, lerp t c.b d.b, lerp t c.a d.a⟩

/-- Modelled from the spec: when `color_scheme` is given no base color,
the color library "chooses a default complementary background" for the
active color; we model the complement channel-wise. -/
def complementaryDefault (c : Color) : Color :=
  ⟨1 - c.r, 1 - c.g, 1 - c.b, c.a⟩

/-- Modelled from the spec: `ColorUtils.color_scheme` lives in
`uchroma/color.py`, which is not part of this excerpt.  The spec
describes the result as "an ordered, fixed-length sequence of color
values produced by interpolating from an active color to a background
color over N steps", with index 0 the "just pressed" end and index
N−1 the "fully faded" end; a missing base color lets the library pick a
default complementary background. -/
def color_scheme (color : Option Color) (base_color : Option Color)
    (steps : ℕ) : List Color :=
  match color, base_color with
  | some act, some base =>
      (List.range steps).map
        (fun (i : ℕ) => lerpColor ((i : ℚ) / ((steps : ℚ) - 1)) act base)
  | some act, none =>
      (List.range steps).map
        (fun (i : ℕ) => lerpColor ((i : ℚ) / ((steps : ℚ) - 1)) act
          (complementaryDefault act))
  | none, some base =>
      (List.range steps).map
        (fun (i : ℕ) => lerpColor ((i : ℚ) / ((steps : ℚ) - 1))
          (complementaryDefault base) base)
  | none, none =>
      (List.range steps).map
        (fun (i : ℕ) => lerpColor ((i : ℚ) / ((steps : ℚ) - 1))
          colorHexFFFFFF (complementaryDefault colorHexFFFFFF))

/-- Translation of `Reaction._set_colors`: build the gradient via
`ColorUtils.color_scheme(color=color, base_color=bg_color, steps=100)`
and store the table and its length; the build is also recorded in the
`builds` log. -/
def set_colors (s : ReactionState) (bg_color color : Option Color) :
    ReactionState :=
  { s with gradient := some (color_scheme color bg_color 100),
           gradient_count := (color_scheme color bg_color 100).length,
           builds := s.builds ++ [(bg_color, color)] }

/-- Translation of `Reaction._set_speed`. -/
def set_speed (s : ReactionState) (value : ℤ) : ReactionState :=
  { s with key_expire_time := ((MAX_SPEED + 1 - value : ℤ) : ℚ) * EXPIRE_TIME_FACTOR }

/-- Translation of `Reaction._change_speed` (the `speed` observer). -/
def change_speed (s : ReactionState) (new : ℤ) : ReactionState :=
  set_speed { s with init_speed := true, speed := new } new

/-- State of a freshly allocated instance before `__init__` runs: trait
defaults in place, no gradient, neither init flag set. -/
def freshState : ReactionState :=
  { speed := DEFAULT_SPEED, key_expire_time := 0, background_color := none,
    color := none, gradient := none, gradient_count := 0,
    init_speed := false, init_colors := false, builds := [] }

/-- Translation of `Reaction.__init__`: apply the default speed unless
an observer already ran, then the default colors (`"#000000"` and
`"#FFFFFF"` string literals, passed straight to `_set_colors`). -/
def reaction_init (s : ReactionState) : ReactionState :=
  let s1 := if s.init_speed then s else set_speed s DEFAULT_SPEED
  if s1.init_colors then s1
  else set_colors s1 (some colorHex000000) (some colorHexFFFFFF)

/-- State after plain construction with no prior explicit settings. -/
def initState : ReactionState := reaction_init freshState

/-- Translation of `Reaction._update_colors` (the observer of
`background_color` and `color`); `change_new` is the `change.new` field
of the delivered traitlets change. -/
def update_colors (s : ReactionState) (change_new : Option Color) :
    ReactionState :=
  if change_new = none then s
  else
    let s1 := { s with init_colors := true }
    set_colors s1
      (if s1.background_color = some opaqueBlack then none
       else s1.background_color)
      s1.color

/-- One of the two color configuration fields. -/
inductive ColorField
  | background_color
  | color
  deriving DecidableEq, Repr

/-- One field assignment inside a configuration transaction. -/
structure FieldChange where
  field : ColorField
  new : Option Color
  deriving DecidableEq, Repr

/-- Store a new value into the named trait. -/
def setField (s : ReactionState) (ch : FieldChange) : ReactionState :=
  match ch.field with
  | .background_color => { s with background_color := ch.new }
  | .color => { s with color := ch.new }

/-- Modelled traitlets transaction semantics: inside
`hold_trait_notifications` every assignment updates the trait value
immediately, and when the hold exits one change notification fires per
assignment, each invoking the registered observer `_update_colors`.
The hold that `_update_colors` itself opens only defers notifications
fired from its own body (there are none), so it does not merge the
per-field notifications. -/
def run_color_transaction (s : ReactionState) (changes : List FieldChange) :
    ReactionState :=
  List.foldl (fun t ch => update_colors t ch.new)
    (List.foldl setField s changes) changes

/-- Error conditions Python would raise in the modelled code. -/
inductive PyError
  | keyError
  | indexError
  deriving DecidableEq, Repr

/-- Message logged by `_react_keys` when an event has no coordinates. -/
def errMsg : String := "No coordinates available"

/-- One `layer.put(coord.y, coord.x, react_color)` call. -/
abbrev LayerWrite := ℤ × ℤ × Option Color

/-- Translation of `Reaction._react_keys`: events with missing or empty
coordinates are logged and skipped; otherwise the stored color is read
back from the data bag and written to every coordinate. -/
def react_keys (ev : KeyEvent) :
    Except PyError (List LayerWrite × List String) :=
  match ev.coords with
  | none => .ok ([], [errMsg])
  | some cs =>
    if cs.length = 0 then .ok ([], [errMsg])
    else
      match bagGet ev.data REACT_COLOR_KEY with
      | none => .error .keyError
      | some rc => .ok (cs.map (fun co => (co.y, co.x, rc)), [])

/-- Translation of the per-event color resolution in
`_process_events` (the body of the guard at reaction.py lines 86-93):
compute `idx = int(gradient_count - percent_complete * gradient_count)`;
at most 15 percent remaining resolves to the background color, else the
gradient table is indexed. -/
def resolve_event_color (s : ReactionState) (g : List Color) (ev : KeyEvent) :
    Except PyError (Option Color) :=
  if ev.percent_complete ≤ 0.15 then .ok s.background_color
  else
    match pyIndex g (pyInt ((s.gradient_count : ℚ) -
        ev.percent_complete * (s.gradient_count : ℚ))) with
    | some c => .ok (some c)
    | none => .error .indexError

/-- Guard `REACT_COLOR_KEY not in events` at reaction.py line 85 (here
without the negation).  Python evaluates `in` on a list by comparing the
left operand against each element; the elements are event objects, never
equal to a string, so each comparison is false. -/
def key_in_events (events : List KeyEvent) : Bool :=
  events.any (fun _ => false)

/-- One iteration of the `_process_events` loop for one event: resolve
and store the color unless the guard reports a cache hit, then apply
`_react_keys`. -/
def process_one (s : ReactionState) (g : List Color) (cacheHit : Bool)
    (ev : KeyEvent) :
    Except PyError (KeyEvent × List LayerWrite × List String) :=
  if cacheHit then
    match react_keys ev with
    | .ok (ws, ls) => .ok (ev, ws, ls)
    | .error e => .error e
  else
    match resolve_event_color s g ev with
    | .error e => .error e
    | .ok c =>
      match react_keys { ev with data := bagSet ev.data REACT_COLOR_KEY c } with
      | .ok (ws, ls) =>
          .ok ({ ev with data := bagSet ev.data REACT_COLOR_KEY c }, ws, ls)
      | .error e => .error e

/-- The `_process_events` loop over the event batch; `all` is the full
batch against which the line-85 guard tests membership. -/
def process_events_go (s : ReactionState) (g : List Color)
    (all : List KeyEvent) :
    List KeyEvent →
      Except PyError (List KeyEvent × List LayerWrite × List String)
  | [] => .ok ([], [], [])
  | ev :: rest =>
    match process_one s g (key_in_events all) ev with
    | .error e => .error e
    | .ok (ev2, ws, ls) =>
      match process_events_go s g all rest with
      | .error e => .error e
      | .ok (evs, ws2, ls2) => .ok (ev2 :: evs, ws ++ ws2, ls ++ ls2)

/-- Translation of `Reaction._process_events`: a missing gradient is a
defensive no-op, otherwise each event is processed in order. -/
def process_events (s : ReactionState) (events : List KeyEvent) :
    Except PyError (List KeyEvent × List LayerWrite × List String) :=
  match s.gradient with
  | none => .ok (events, [], [])
  | some g => process_events_go s g events events

/-- Translation of `Reaction.draw`: `events` is the batch yielded by
`get_input_events`; a non-empty batch is processed and reported as a
change, an empty batch reports no change. -/
def draw (s : ReactionState) (events : List KeyEvent) :
    Except PyError (Bool × List KeyEvent × List LayerWrite × List String) :=
  if 0 < events.length then
    match process_events s events with
    | .error e => .error e
    | .ok (evs, ws, ls) => .ok (true, evs, ws, ls)
  else
    .ok (false, events, [], [])

/-! Helper lemmas about the embedding. -/

/-- The line-85 guard is false for every batch: a string is never equal
to an event object, so membership always fails. -/
theorem key_in_events_false (l : List KeyEvent) : key_in_events l = false := by
  simp [key_in_events]

/-- Reading back the key just stored in a data bag yields the stored value. -/
theorem bagGet_bagSet_self (d : List (String × Option Color)) (k : String)
    (v : Option Color) : bagGet (bagSet d k v) k = some v := by
  induction d with
  | nil => simp [bagSet, bagGet]
  | cons p rest ih =>
    by_cases h : p.1 = k
    · simp [bagSet, bagGet, h]
    · simp [bagSet, bagGet, h, ih]

/-- Truncation agrees with the floor on nonnegative arguments. -/
theorem pyInt_of_nonneg {q : ℚ} (h : 0 ≤ q) : pyInt q = ⌊q⌋ := if_pos h

/-- Python indexing with a nonnegative index is plain list indexing. -/
theorem pyIndex_of_nonneg {α : Type} {l : List α} {i : ℤ} (h : 0 ≤ i) :
    pyIndex l i = l[i.toNat]? := by
  have h2 : ¬ i < 0 := not_lt.mpr h
  simp [pyIndex, h2, h]

/-- Lower bound of the gradient index for decay fractions at most one. -/
theorem floor_idx_nonneg {p : ℚ} (h1 : p ≤ 1) :
    0 ≤ ⌊(100 : ℚ) - p * 100⌋ := by
  have h : (0 : ℚ) ≤ 100 - p * 100 := by nlinarith
  exact Int.floor_nonneg.mpr h

/-- Upper bound of the gradient index above the background threshold. -/
theorem floor_idx_le {p : ℚ} (h : (0.15 : ℚ) < p) :
    ⌊(100 : ℚ) - p * 100⌋ ≤ 99 := by
  have h2 : (100 : ℚ) - p * 100 < 85 := by nlinarith
  have h3 : ⌊(100 : ℚ) - p * 100⌋ < (85 : ℤ) :=
    Int.floor_lt.mpr (by exact_mod_cast h2)
  omega

/-- Resolution in the near-total-decay branch returns the background color. -/
theorem resolve_low (s : ReactionState) (g : List Color) (ev : KeyEvent)
    (h : ev.percent_complete ≤ 0.15) :
    resolve_event_color s g ev = .ok s.background_color := by
  simp [resolve_event_color, h]

/-- Resolution in the gradient branch returns the table entry at the
floor index, and that entry exists. -/
theorem resolve_high (s : ReactionState) (g : List Color) (ev : KeyEvent)
    (hcnt : s.gradient_count = 100) (hlen : g.length = 100)
    (h1 : (0.15 : ℚ) < ev.percent_complete) (h2 : ev.percent_complete ≤ 1) :
    resolve_event_color s g ev =
      .ok (g[(⌊(100 : ℚ) - ev.percent_complete * 100⌋).toNat]?) ∧
    (g[(⌊(100 : ℚ) - ev.percent_complete * 100⌋).toNat]?).isSome = true := by
  have hq : (0 : ℚ) ≤ 100 - ev.percent_complete * 100 := by nlinarith
  have hlb : 0 ≤ ⌊(100 : ℚ) - ev.percent_complete * 100⌋ := Int.floor_nonneg.mpr hq
  have hub : ⌊(100 : ℚ) - ev.percent_complete * 100⌋ ≤ 99 := floor_idx_le h1
  have hn : (⌊(100 : ℚ) - ev.percent_complete * 100⌋).toNat < g.length := by omega
  have hc : g[(⌊(100 : ℚ) - ev.percent_complete * 100⌋).toNat]? =
      some (g[(⌊(100 : ℚ) - ev.percent_complete * 100⌋).toNat]) :=
    List.getElem?_eq_getElem hn
  have hcast : ((100 : ℕ) : ℚ) = (100 : ℚ) := by norm_num
  unfold resolve_event_color
  rw [if_neg (not_le.mpr h1), hcnt, hcast, pyInt_of_nonneg hq,
    pyIndex_of_nonneg hlb, hc]
  simp

/-- Resolution never raises when the decay fraction is at most one and
the stored count matches a 100-entry table. -/
theorem resolve_event_color_ok (s : ReactionState) (g : List Color)
    (ev : KeyEvent) (hcnt : s.gradient_count = 100) (hlen : g.length = 100)
    (h2 : ev.percent_complete ≤ 1) :
    ∃ c, resolve_event_color s g ev = .ok c := by
  by_cases h : ev.percent_complete ≤ 0.15
  · exact ⟨s.background_color, resolve_low s g ev h⟩
  · obtain ⟨he, _⟩ := resolve_high s g ev hcnt hlen (not_le.mp h) h2
    exact ⟨_, he⟩

/-- Events without coordinates are logged and skipped by `_react_keys`. -/
theorem react_keys_no_coords (ev : KeyEvent)
    (hc : ev.coords = none ∨ ev.coords = some []) :
    react_keys ev = .ok ([], [errMsg]) := by
  rcases hc with h | h <;> simp [react_keys, h]

/-- Coordinate writing never raises once the data bag holds the key. -/
theorem react_keys_ok_of_bag (ev : KeyEvent)
    (h : (bagGet ev.data REACT_COLOR_KEY).isSome = true) :
    ∃ out, react_keys ev = .ok out := by
  cases hco : ev.coords with
  | none => exact ⟨([], [errMsg]), by simp [react_keys, hco]⟩
  | some cs =>
    by_cases hl : cs.length = 0
    · exact ⟨([], [errMsg]), by simp [react_keys, hco, hl]⟩
    · obtain ⟨rc, hrc⟩ := Option.isSome_iff_exists.mp h
      exact ⟨(cs.map (fun co => (co.y, co.x, rc)), []),
        by simp [react_keys, hco, hl, hrc]⟩

/-- One loop iteration never raises when the guard misses. -/
theorem process_one_ok (s : ReactionState) (g : List Color) (ev : KeyEvent)
    (hcnt : s.gradient_count = 100) (hlen : g.length = 100)
    (h2 : ev.percent_complete ≤ 1) :
    ∃ out, process_one s g false ev = .ok out := by
  obtain ⟨c, hc⟩ := resolve_event_color_ok s g ev hcnt hlen h2
  have hbag : (bagGet ({ ev with data := bagSet ev.data REACT_COLOR_KEY c }).data
      REACT_COLOR_KEY).isSome = true := by
    show (bagGet (bagSet ev.data REACT_COLOR_KEY c) REACT_COLOR_KEY).isSome = true
    rw [bagGet_bagSet_self]
    rfl
  obtain ⟨⟨ws, ls⟩, hout⟩ :=
    react_keys_ok_of_bag { ev with data := bagSet ev.data REACT_COLOR_KEY c } hbag
  exact ⟨({ ev with data := bagSet ev.data REACT_COLOR_KEY c }, ws, ls),
    by simp [process_one, hc, hout]⟩

/-- The whole event loop never raises on a batch of in-range events. -/
theorem process_events_go_ok (s : ReactionState) (g : List Color)
    (all : List KeyEvent) (hcnt : s.gradient_count = 100)
    (hlen : g.length = 100) :
    ∀ events : List KeyEvent, (∀ ev ∈ events, ev.percent_complete ≤ 1) →
      ∃ out, process_events_go s g all events = .ok out := by
  intro events
  induction events with
  | nil => exact fun _ => ⟨([], [], []), rfl⟩
  | cons ev rest ih =>
    intro h
    obtain ⟨⟨ev2, ws, ls⟩, h1⟩ := process_one_ok s g ev hcnt hlen (h ev (by simp))
    obtain ⟨⟨evs, ws2, ls2⟩, hr⟩ := ih (fun e he => h e (by simp [he]))
    exact ⟨(ev2 :: evs, ws ++ ws2, ls ++ ls2),
      by simp [process_events_go, key_in_events_false, h1, hr]⟩

/-- Storing a trait value does not touch the build log. -/
theorem setField_builds (s : ReactionState) (ch : FieldChange) :
    (setField s ch).builds = s.builds := by
  cases ch with
  | mk f n => cases f <;> rfl

/-- The value-storing phase of a transaction does not touch the build log. -/
theorem foldl_setField_builds (changes : List FieldChange) :
    ∀ s : ReactionState, (List.foldl setField s changes).builds = s.builds := by
  induction changes with
  | nil => intro s; rfl
  | cons ch rest ih => intro s; rw [List.foldl_cons, ih, setField_builds]

/-- Each delivered notification rebuilds once iff its new value is defined. -/
theorem update_colors_builds_len (s : ReactionState) (c : Option Color) :
    (update_colors s c).builds.length =
      s.builds.length + (if c.isSome then 1 else 0) := by
  by_cases h : c = none
  · subst h; simp [update_colors]
  · have hs : c.isSome = true := Option.isSome_iff_ne_none.mpr h
    simp [update_colors, h, set_colors, hs]

/-- The notification phase rebuilds once per defined new value. -/
theorem foldl_update_builds (changes : List FieldChange) :
    ∀ t : ReactionState,
      (List.foldl (fun t ch => update_colors t ch.new) t changes).builds.length =
        t.builds.length + (changes.filter (fun ch => ch.new.isSome)).length := by
  induction changes with
  | nil => intro t; simp
  | cons ch rest ih =>
    intro t
    rw [List.foldl_cons, ih, update_colors_builds_len]
    by_cases h : ch.new.isSome
    · simp [List.filter_cons, h]
      omega
    · simp [List.filter_cons, h]

/-! Claim theorems. -/

/-- Claim C4: for every speed value in [1,9] a speed change (and the
default-speed initialization) sets `key_expire_time` to
`(MAX_SPEED + 1 - speed) * 0.25`; in particular speed 6 gives 1.0,
speed 9 gives 0.25, speed 1 gives 2.25, and the mapping from speed to
expire time is strictly decreasing. -/
theorem reaction_speed_expire_time (s : ReactionState) (v w : ℤ)
    (_hv1 : 1 ≤ v) (_hv9 : v ≤ 9) (_hw1 : 1 ≤ w) (_hw9 : w ≤ 9) (hvw : v < w) :
    (set_speed s v).key_expire_time = ((9 + 1 - v : ℤ) : ℚ) * 0.25 ∧
    (set_speed s w).key_expire_time < (set_speed s v).key_expire_time ∧
    (set_speed s 6).key_expire_time = 1 ∧
    (set_speed s 9).key_expire_time = 0.25 ∧
    (set_speed s 1).key_expire_time = 2.25 ∧
    initState.key_expire_time = 1 := by
  refine ⟨?_, ?_, ?_, ?_, ?_, ?_⟩
  · norm_num [set_speed, MAX_SPEED, EXPIRE_TIME_FACTOR]
  · simp only [set_speed, MAX_SPEED, EXPIRE_TIME_FACTOR]
    push_cast
    norm_num
    linarith
  · norm_num [set_speed, MAX_SPEED, EXPIRE_TIME_FACTOR]
  · norm_num [set_speed, MAX_SPEED, EXPIRE_TIME_FACTOR]
  · norm_num [set_speed, MAX_SPEED, EXPIRE_TIME_FACTOR]
  · norm_num [initState, reaction_init, freshState, set_speed, set_colors,
      DEFAULT_SPEED, MAX_SPEED, EXPIRE_TIME_FACTOR]

/-- Witness for claim C4 at speeds 2 and 7. -/
theorem reaction_speed_expire_time_witness :
    (set_speed freshState 2).key_expire_time = ((9 + 1 - 2 : ℤ) : ℚ) * 0.25 ∧
    (set_speed freshState 7).key_expire_time <
      (set_speed freshState 2).key_expire_time ∧
    (set_speed freshState 6).key_expire_time = 1 ∧
    (set_speed freshState 9).key_expire_time = 0.25 ∧
    (set_speed freshState 1).key_expire_time = 2.25 ∧
    initState.key_expire_time = 1 :=
  reaction_speed_expire_time freshState 2 7 (by norm_num) (by norm_num)
    (by norm_num) (by norm_num) (by norm_num)

/-- Claim C9: every gradient-table build requests 100 steps, the built
table has length exactly 100, and the stored count equals the built
table's length. -/
theorem reaction_gradient_length_100 (s : ReactionState) (bg c : Option Color) :
    (set_colors s bg c).gradient = some (color_scheme c bg 100) ∧
    (color_scheme c bg 100).length = 100 ∧
    (set_colors s bg c).gradient_count = (color_scheme c bg 100).length ∧
    (set_colors s bg c).gradient_count = 100 := by
  have hlen : (color_scheme c bg 100).length = 100 := by
    cases c <;> cases bg <;> simp [color_scheme]
  exact ⟨rfl, hlen, rfl, by simp [set_colors, hlen]⟩

/-- Claim C8: a color-change notification with a defined new value,
arriving while the background color is opaque black, rebuilds the
gradient with an undefined base color in place of black and with the
current `color` field as the pressed color. -/
theorem reaction_black_background_normalized (s : ReactionState) (c : Color)
    (hbg : s.background_color = some opaqueBlack) :
    update_colors s (some c) =
      set_colors { s with init_colors := true } none s.color ∧
    (update_colors s (some c)).gradient = some (color_scheme s.color none 100) ∧
    (update_colors s (some c)).builds = s.builds ++ [(none, s.color)] := by
  have h1 : update_colors s (some c) =
      set_colors { s with init_colors := true } none s.color := by
    simp [update_colors, hbg]
  exact ⟨h1, by rw [h1]; simp [set_colors], by rw [h1]; simp [set_colors]⟩

/-- Concrete state whose background color is opaque black. -/
def sBlackBg : ReactionState :=
  { freshState with background_color := some opaqueBlack,
                    color := some colorHexFFFFFF }

/-- Witness for claim C8 on a concrete black-background state. -/
theorem reaction_black_background_normalized_witness :
    update_colors sBlackBg (some colorRed) =
      set_colors { sBlackBg with init_colors := true } none sBlackBg.color ∧
    (update_colors sBlackBg (some colorRed)).gradient =
      some (color_scheme sBlackBg.color none 100) ∧
    (update_colors sBlackBg (some colorRed)).builds =
      sBlackBg.builds ++ [(none, sBlackBg.color)] :=
  reaction_black_background_normalized sBlackBg colorRed rfl

/-- Claim C10: construction with no explicitly set colors builds the
default gradient by passing the literal color `"#000000"` as the base:
the opaque-black-to-undefined normalization of the change-notification
path is not applied here, even though the literal equals the sentinel,
so the default table's background endpoint is literal black. -/
theorem reaction_default_init_literal_black :
    initState.builds = [(some colorHex000000, some colorHexFFFFFF)] ∧
    colorHex000000 = opaqueBlack ∧
    initState.gradient =
      some (color_scheme (some colorHexFFFFFF) (some colorHex000000) 100) ∧
    (color_scheme (some colorHexFFFFFF) (some colorHex000000) 100)[99]? =
      some colorHex000000 := by
  refine ⟨rfl, rfl, rfl, ?_⟩
  have h : (List.range 100)[99]? = some 99 := by simp
  have h2 : (color_scheme (some colorHexFFFFFF) (some colorHex000000) 100)[99]? =
      some (lerpColor ((99 : ℚ) / ((100 : ℚ) - 1)) colorHexFFFFFF colorHex000000) := by
    simp only [color_scheme]
    rw [List.getElem?_map, h, Option.map_some']
    norm_num
  rw [h2]
  norm_num [lerpColor, lerp, colorHexFFFFFF, colorHex000000]

/-- Transaction updating both color fields to defined values. -/
def txnBothColors : List FieldChange :=
  [⟨.background_color, some colorRed⟩, ⟨.color, some colorGreen⟩]

/-- Counterexample to claim C3: starting from the freshly constructed
state (whose build log has one entry), a transaction that updates both
`background_color` and `color` leaves three builds in the log — the
gradient table was rebuilt twice, not exactly once. -/
theorem reaction_batch_rebuild_counterexample :
    initState.builds.length = 1 ∧
    (run_color_transaction initState txnBothColors).builds.length = 3 :=
  ⟨rfl, rfl⟩

/-- Amended claim C3: the gradient table is rebuilt once per changed
field whose new value is defined, so a transaction updating both
`background_color` and `color` rebuilds it twice. -/
theorem reaction_rebuild_once_per_changed_field (s : ReactionState)
    (changes : List FieldChange) :
    (run_color_transaction s changes).builds.length =
      s.builds.length + (changes.filter (fun ch => ch.new.isSome)).length := by
  unfold run_color_transaction
  rw [foldl_update_builds, foldl_setField_builds]

/-- Claim C1: with a built 100-entry gradient table, an event with at
most 15 percent remaining resolves exactly to the background color and
an event above the threshold resolves to the gradient-table entry at
index `floor(table_length - percent_complete * table_length)`, so a
fully fresh event (`percent_complete = 1`) resolves to index 0. -/
theorem reaction_fade_color_resolution (s : ReactionState) (g : List Color)
    (ev : KeyEvent) (hcnt : s.gradient_count = 100) (hlen : g.length = 100)
    (hp1 : ev.percent_complete ≤ 1) :
    (ev.percent_complete ≤ 0.15 →
      resolve_event_color s g ev = .ok s.background_color) ∧
    (0.15 < ev.percent_complete →
      resolve_event_color s g ev =
        .ok (g[(⌊(100 : ℚ) - ev.percent_complete * 100⌋).toNat]?)) ∧
    (ev.percent_complete = 1 →
      resolve_event_color s g ev = .ok (g[0]?)) := by
  refine ⟨fun h => resolve_low s g ev h,
    fun h => (resolve_high s g ev hcnt hlen h hp1).1, fun h => ?_⟩
  have h2 := (resolve_high s g ev hcnt hlen (by rw [h]; norm_num) hp1).1
  rw [h] at h2
  have h3 : (⌊(100 : ℚ) - 1 * 100⌋).toNat = 0 := by norm_num
  rw [h3] at h2
  exact h2

/-- Concrete state whose gradient table was built by `_set_colors`. -/
def sW : ReactionState := set_colors freshState none (some colorHexFFFFFF)

/-- The concrete gradient table stored in `sW`. -/
def gW : List Color := color_scheme (some colorHexFFFFFF) none 100

/-- Event at exactly the background threshold. -/
def evLow : KeyEvent := ⟨0.15, some [⟨0, 0⟩], []⟩

/-- Event just above the background threshold. -/
def evHigh : KeyEvent := ⟨0.16, some [⟨0, 0⟩], []⟩

/-- Freshly pressed event. -/
def evFull : KeyEvent := ⟨1, some [⟨0, 0⟩], []⟩

/-- Witness for claim C1 at decay fractions 0.15, 0.16 and 1. -/
theorem reaction_fade_color_resolution_witness :
    resolve_event_color sW gW evLow = .ok sW.background_color ∧
    resolve_event_color sW gW evHigh = .ok (gW[84]?) ∧
    resolve_event_color sW gW evFull = .ok (gW[0]?) := by
  refine ⟨?_, ?_, ?_⟩
  · exact (reaction_fade_color_resolution sW gW evLow rfl rfl
      (by norm_num [evLow])).1 (by norm_num [evLow])
  · have h := (reaction_fade_color_resolution sW gW evHigh rfl rfl
      (by norm_num [evHigh])).2.1 (by norm_num [evHigh])
    have h84 : (⌊(100 : ℚ) - evHigh.percent_complete * 100⌋).toNat = 84 := by
      have h0 : ⌊(100 : ℚ) - evHigh.percent_complete * 100⌋ = 84 := by
        norm_num [evHigh]
      rw [h0]
      rfl
    rw [h84] at h
    exact h
  · exact (reaction_fade_color_resolution sW gW evFull rfl rfl
      (by norm_num [evFull])).2.2 rfl

/-- Claim C5: in the gradient branch (threshold exceeded, decay fraction
at most one, 100-entry table) the computed index lies in [0, 99] and the
table lookup succeeds, while a decay fraction of zero would have
produced the out-of-range index 100 that the background branch guards. -/
theorem reaction_gradient_index_safe (s : ReactionState) (g : List Color)
    (ev : KeyEvent) (hcnt : s.gradient_count = 100) (hlen : g.length = 100)
    (h1 : (0.15 : ℚ) < ev.percent_complete) (h2 : ev.percent_complete ≤ 1) :
    (0 ≤ ⌊(100 : ℚ) - ev.percent_complete * 100⌋ ∧
     ⌊(100 : ℚ) - ev.percent_complete * 100⌋ ≤ 99 ∧
     ∃ c, resolve_event_color s g ev = .ok (some c)) ∧
    (pyInt ((100 : ℚ) - 0 * 100) = 100 ∧ pyIndex g 100 = none) := by
  obtain ⟨he, hs⟩ := resolve_high s g ev hcnt hlen h1 h2
  obtain ⟨c, hc⟩ := Option.isSome_iff_exists.mp hs
  refine ⟨⟨floor_idx_nonneg h2, floor_idx_le h1, c, by rw [he, hc]⟩, ?_, ?_⟩
  · norm_num [pyInt]
  · have ht : ((100 : ℤ)).toNat = 100 := rfl
    rw [pyIndex_of_nonneg (by norm_num), ht, List.getElem?_eq_none]
    omega

/-- Event halfway through its decay. -/
def evMid : KeyEvent := ⟨0.5, some [⟨0, 0⟩], []⟩

/-- Witness for claim C5 at decay fraction 0.5. -/
theorem reaction_gradient_index_safe_witness :
    (0 ≤ ⌊(100 : ℚ) - evMid.percent_complete * 100⌋ ∧
     ⌊(100 : ℚ) - evMid.percent_complete * 100⌋ ≤ 99 ∧
     ∃ c, resolve_event_color sW gW evMid = .ok (some c)) ∧
    (pyInt ((100 : ℚ) - 0 * 100) = 100 ∧ pyIndex gW 100 = none) :=
  reaction_gradient_index_safe sW gW evMid rfl rfl
    (by norm_num [evMid]) (by norm_num [evMid])

/-- Claim C6: an event whose coordinate set is missing or empty resolves
without raising, contributes zero layer writes and exactly one logged
error, and the rest of the batch is processed unchanged. -/
theorem reaction_malformed_event_skipped (s : ReactionState) (g : List Color)
    (all rest : List KeyEvent) (ev : KeyEvent)
    (hcnt : s.gradient_count = 100) (hlen : g.length = 100)
    (hp1 : ev.percent_complete ≤ 1)
    (hc : ev.coords = none ∨ ev.coords = some []) :
    ∃ c, resolve_event_color s g ev = .ok c ∧
      react_keys { ev with data := bagSet ev.data REACT_COLOR_KEY c } =
        .ok ([], [errMsg]) ∧
      process_events_go s g all (ev :: rest) =
        Except.map
          (fun out =>
            ({ ev with data := bagSet ev.data REACT_COLOR_KEY c } :: out.1,
             out.2.1, errMsg :: out.2.2))
          (process_events_go s g all rest) := by
  obtain ⟨c, hres⟩ := resolve_event_color_ok s g ev hcnt hlen hp1
  have hrk : react_keys { ev with data := bagSet ev.data REACT_COLOR_KEY c } =
      .ok ([], [errMsg]) :=
    react_keys_no_coords _ hc
  have hpo : process_one s g (key_in_events all) ev =
      .ok ({ ev with data := bagSet ev.data REACT_COLOR_KEY c },
        [], [errMsg]) := by
    rw [key_in_events_false]
    simp [process_one, hres, hrk]
  refine ⟨c, hres, hrk, ?_⟩
  cases hgo : process_events_go s g all rest with
  | error e => simp [process_events_go, hpo, hgo, Except.map]
  | ok out =>
    obtain ⟨evs, ws, ls⟩ := out
    simp [process_events_go, hpo, hgo, Except.map]

/-- Well-formed event with one coordinate. -/
def evGood : KeyEvent := ⟨0.5, some [⟨1, 2⟩], []⟩

/-- Malformed event with an empty coordinate set. -/
def evBad : KeyEvent := ⟨0.5, some [], []⟩

/-- Witness for claim C6 on a malformed event followed by a good one. -/
theorem reaction_malformed_event_skipped_witness :
    ∃ c, resolve_event_color sW gW evBad = .ok c ∧
      react_keys { evBad with data := bagSet evBad.data REACT_COLOR_KEY c } =
        .ok ([], [errMsg]) ∧
      process_events_go sW gW [evBad, evGood] (evBad :: [evGood]) =
        Except.map
          (fun out =>
            ({ evBad with data := bagSet evBad.data REACT_COLOR_KEY c } :: out.1,
             out.2.1, errMsg :: out.2.2))
          (process_events_go sW gW [evBad, evGood] [evGood]) :=
  reaction_malformed_event_skipped sW gW [evBad, evGood] [evGood] evBad
    rfl rfl (by norm_num [evBad]) (Or.inr rfl)

/-- Claim C7: a frame whose event batch is empty reports no change and
performs no layer writes; a frame with at least one event (with the
gradient invariant and in-range decay fractions) reports a change. -/
theorem reaction_draw_changed_flag (s : ReactionState) (events : List KeyEvent)
    (hwf : ∀ g, s.gradient = some g → s.gradient_count = 100 ∧ g.length = 100)
    (hev : ∀ ev ∈ events, ev.percent_complete ≤ 1) :
    draw s [] = .ok (false, [], [], []) ∧
    (events ≠ [] →
      ∃ evs ws ls, draw s events = .ok (true, evs, ws, ls)) := by
  constructor
  · rfl
  · intro hne
    have hpos : 0 < events.length := List.length_pos.mpr hne
    cases hg : s.gradient with
    | none =>
      exact ⟨events, [], [], by simp [draw, hpos, process_events, hg]⟩
    | some g =>
      obtain ⟨hcnt, hglen⟩ := hwf g hg
      obtain ⟨⟨evs, ws, ls⟩, hgo⟩ :=
        process_events_go_ok s g events hcnt hglen events hev
      exact ⟨evs, ws, ls, by simp [draw, hpos, process_events, hg, hgo]⟩

/-- Witness for claim C7 on an empty and a one-event batch. -/
theorem reaction_draw_changed_flag_witness :
    draw sW [] = .ok (false, [], [], []) ∧
    ([evGood] ≠ [] →
      ∃ evs ws ls, draw sW [evGood] = .ok (true, evs, ws, ls)) :=
  reaction_draw_changed_flag sW [evGood]
    (by
      intro g hg
      have hg2 : some gW = some g := hg
      have hg3 : gW = g := by injection hg2
      subst hg3
      exact ⟨rfl, rfl⟩)
    (by
      intro ev h
      rw [List.mem_singleton] at h
      subst h
      norm_num [evGood])

/-- Event whose data bag already holds a resolved color under the
well-known key, as after an earlier processing of the same event object
within the frame. -/
def evCached : KeyEvent :=
  ⟨0.5, some [⟨0, 0⟩], [(REACT_COLOR_KEY, some colorRed)]⟩

/-- Gradient-table entry of `gW` at index 50. -/
def gradEntry50 : Color := ⟨49/99, 49/99, 49/99, 1⟩

/-- Claim C2 failing input: the guard `REACT_COLOR_KEY not in events`
tests the events list, not the event's data bag, so it never reports a
cache hit; an event whose bag already stores red is recomputed and the
stored color is overwritten with the gradient entry instead of being
reused. -/
theorem reaction_cache_guard_ineffective :
    key_in_events [evCached] = false ∧
    bagGet evCached.data REACT_COLOR_KEY = some (some colorRed) ∧
    process_events sW [evCached] =
      .ok ([{ evCached with data := [(REACT_COLOR_KEY, some gradEntry50)] }],
           [(0, 0, some gradEntry50)], []) ∧
    gradEntry50 ≠ colorRed := by
  have hentry : gW[50]? = some gradEntry50 := by
    have h : (List.range 100)[50]? = some 50 := by simp
    have h2 : gW[50]? =
        some (lerpColor ((50 : ℚ) / ((100 : ℚ) - 1)) colorHexFFFFFF
          (complementaryDefault colorHexFFFFFF)) := by
      simp only [gW, color_scheme]
      rw [List.getElem?_map, h, Option.map_some']
      norm_num
    rw [h2]
    norm_num [lerpColor, lerp, complementaryDefault, colorHexFFFFFF, gradEntry50]
  have hres : resolve_event_color sW gW evCached = .ok (some gradEntry50) := by
    have h := (resolve_high sW gW evCached rfl rfl
      (by norm_num [evCached]) (by norm_num [evCached])).1
    have hidx : (⌊(100 : ℚ) - evCached.percent_complete * 100⌋).toNat = 50 := by
      have h0 : ⌊(100 : ℚ) - evCached.percent_complete * 100⌋ = 50 := by
        norm_num [evCached]
      rw [h0]
      rfl
    rw [hidx, hentry] at h
    exact h
  have hbag : bagSet evCached.data REACT_COLOR_KEY (some gradEntry50) =
      [(REACT_COLOR_KEY, some gradEntry50)] := by
    simp [evCached, bagSet]
  have hrk : react_keys
      { evCached with data := [(REACT_COLOR_KEY, some gradEntry50)] } =
      .ok ([(0, 0, some gradEntry50)], []) := by
    simp [react_keys, evCached, bagGet]
  refine ⟨rfl, rfl, ?_, ?_⟩
  · show process_events_go sW gW [evCached] [evCached] =
      .ok ([{ evCached with data := [(REACT_COLOR_KEY, some gradEntry50)] }],
           [(0, 0, some gradEntry50)], [])
    have hpo : process_one sW gW (key_in_events [evCached]) evCached =
        .ok ({ evCached with data := [(REACT_COLOR_KEY, some gradEntry50)] },
          [(0, 0, some gradEntry50)], []) := by
      rw [key_in_events_false]
      simp [process_one, hres, hbag, hrk]
    simp [process_events_go, hpo]
  · norm_num [gradEntry50, colorRed, Color.mk.injEq]
